import Mathlib

/-!
Verification of the SlideDeck AI web client core: the IR schema
(apps/web/src/types/schema.ts), the API client reference builders
(lib/api.ts) and the Zustand session store (apps/web/src/lib/store.ts).

The store is embedded as explicit state passing: each store action is a
function on an `AppState` record; the transport outcome of a generate or
refine call is passed in as an `Except` value (the backend is an external
collaborator). Asynchrony is modelled by a small-step relation over a
`World` that pairs the app state with the multiset of in-flight transport
calls, so that interleavings of dispatches and resolutions are expressible.
-/

namespace SlideDeckAI

/-! ## IR schema, from apps/web/src/types/schema.ts -/

/-- Enum HorizontalAlignment: "left" | "center" | "right". -/
inductive HorizontalAlignment
  | left
  | center
  | right
deriving DecidableEq, Repr

/-- Enum VerticalAlignment: "top" | "middle" | "bottom". -/
inductive VerticalAlignment
  | top
  | middle
  | bottom
deriving DecidableEq, Repr

/-- Enum ChartType: "bar" | "line" | "pie" | "doughnut". -/
inductive ChartType
  | bar
  | line
  | pie
  | doughnut
deriving DecidableEq, Repr

/-- Enum LayoutType: the six slide layouts. -/
inductive LayoutType
  | title
  | title_content
  | two_column
  | blank
  | section_header
  | image_full
deriving DecidableEq, Repr

/-- Enum GenerationMode: "from_scratch" | "template" | "reference". -/
inductive GenerationMode
  | from_scratch
  | template
  | reference
deriving DecidableEq, Repr

/-- DesignTokens, produced by the template/reference scanner. -/
structure DesignTokens where
  primary_color : String
  secondary_color : String
  background_color : String
  font_heading : String
  font_body : String
  layout_names : List String
  extracted_colors : List String
  extracted_fonts : List String
deriving DecidableEq, Repr

/-- TextBox element. JS numbers are modelled as rationals. -/
structure TextBox where
  content : String
  is_title : Bool
  x : ℚ
  y : ℚ
  width : ℚ
  height : ℚ
  font_name : String
  font_size : ℚ
  font_bold : Bool
  font_italic : Bool
  font_color : String
  alignment : HorizontalAlignment
  vertical_alignment : VerticalAlignment
deriving DecidableEq, Repr

/-- ImageElement: optional url and path, alt text and geometry. -/
structure ImageElement where
  url : Option String
  path : Option String
  alt_text : String
  x : ℚ
  y : ℚ
  width : ℚ
  height : ℚ
deriving DecidableEq, Repr

/-- One named series of a chart. -/
structure ChartSeries where
  name : String
  values : List ℚ
deriving DecidableEq, Repr

/-- ChartElement: chart type, title, categories, series and geometry. -/
structure ChartElement where
  chart_type : ChartType
  title : String
  categories : List String
  series : List ChartSeries
  x : ℚ
  y : ℚ
  width : ℚ
  height : ℚ
deriving DecidableEq, Repr

/-- SlideElement: closed union discriminated by the type tag. -/
inductive SlideElement
  | text (t : TextBox)
  | image (i : ImageElement)
  | chart (c : ChartElement)
deriving DecidableEq, Repr

/-- Slide: layout, background color, ordered elements, speaker notes. -/
structure Slide where
  layout : LayoutType
  background_color : String
  elements : List SlideElement
  speaker_notes : String
deriving DecidableEq, Repr

/-- ThemeSettings: colors and fonts of the deck. -/
structure ThemeSettings where
  primary_color : String
  secondary_color : String
  background_color : String
  font_heading : String
  font_body : String
deriving DecidableEq, Repr

/-- Presentation: the IR root entity. -/
structure Presentation where
  title : String
  subtitle : String
  author : String
  theme : ThemeSettings
  slides : List Slide
deriving DecidableEq, Repr

/-- GenerateResponse, as returned by the generate endpoint. -/
structure GenerateResponse where
  presentation_id : String
  presentation : Presentation
  download_url : String
  preview_urls : List String
  generation_mode : GenerationMode
  design_tokens : Option DesignTokens
deriving DecidableEq, Repr

/-- RefineResponse, as returned by the refine endpoint. -/
structure RefineResponse where
  presentation_id : String
  presentation : Presentation
  download_url : String
  preview_urls : List String
deriving DecidableEq, Repr

/-! ## API client reference builders, from lib/api.ts -/

/-- API base: process.env.NEXT_PUBLIC_API_URL falling back to the literal
default. The environment variable is per-deployment configuration, fixed
for the whole process; it is modelled by the documented default value. -/
def API_BASE : String := "http://localhost:8000"

/-- getDownloadUrl: pure template-string construction over the id. -/
def getDownloadUrl (presentationId : String) : String :=
  API_BASE ++ "/api/download/" ++ presentationId

/-- getPreviewUrl: pure template-string construction over id and index. -/
def getPreviewUrl (presentationId : String) (slideIndex : ℤ) : String :=
  API_BASE ++ "/api/preview/" ++ presentationId ++ "/" ++ toString slideIndex

/-! ## Session store, from apps/web/src/lib/store.ts -/

/-- A browser File value: only its name is ever inspected by this client. -/
structure JsFile where
  name : String
deriving DecidableEq, Repr

/-- The state slice of the Zustand store (the non-action fields of
AppState in store.ts). activeSlideIndex is an integer because JS numbers
flow into it unclamped. -/
structure AppState where
  prompt : String
  isGenerating : Bool
  isRefining : Bool
  presentation : Option Presentation
  presentationId : Option String
  previewUrls : List String
  downloadUrl : Option String
  error : Option String
  activeSlideIndex : ℤ
  generationMode : GenerationMode
  templateFile : Option JsFile
  promptHistory : List String
deriving DecidableEq, Repr

/-- The initial state literal of the store (store.ts lines 45 to 56). -/
def initialState : AppState where
  prompt := ""
  isGenerating := false
  isRefining := false
  presentation := none
  presentationId := none
  previewUrls := []
  downloadUrl := none
  error := none
  activeSlideIndex := 0
  generationMode := GenerationMode.from_scratch
  templateFile := none
  promptHistory := []

/-- setPrompt action. -/
def setPrompt (p : String) (s : AppState) : AppState := { s with prompt := p }

/-- setActiveSlide action (store.ts line 61): stores the index as given. -/
def setActiveSlide (index : ℤ) (s : AppState) : AppState :=
  { s with activeSlideIndex := index }

/-- setGenerationMode action. -/
def setGenerationMode (m : GenerationMode) (s : AppState) : AppState :=
  { s with generationMode := m }

/-- setTemplateFile action. -/
def setTemplateFile (f : Option JsFile) (s : AppState) : AppState :=
  { s with templateFile := f }

/-- reset action (store.ts lines 126 to 140): the full record literal
written in the source. -/
def reset (_s : AppState) : AppState where
  prompt := ""
  isGenerating := false
  isRefining := false
  presentation := none
  presentationId := none
  previewUrls := []
  downloadUrl := none
  error := none
  activeSlideIndex := 0
  generationMode := GenerationMode.from_scratch
  templateFile := none
  promptHistory := []

/-- A JS thrown value as seen by a catch clause: either an Error carrying
a message, or some non-Error value. -/
inductive Thrown
  | jsError (message : String)
  | nonError
deriving DecidableEq, Repr

/-- The expression `err instanceof Error ? err.message : fallback` used in
both catch clauses of the store. -/
def caughtMessage (t : Thrown) (fallback : String) : String :=
  match t with
  | Thrown.jsError m => m
  | Thrown.nonError => fallback

/-- JS truthiness of the presentationId field: `if (!presentationId)
return;` treats both null and the empty string as absent. -/
def optionTruthy : Option String → Bool
  | none => false
  | some s => !(s == "")

/-- The synchronous set issued by generate before awaiting the transport
(store.ts line 69): busy flag raised, error cleared. -/
def generateStartEffect (s : AppState) : AppState :=
  { s with isGenerating := true, error := none }

/-- The set issued by generate once the transport settles (store.ts lines
81 to 95): on success replace presentation, identity, previews, download
reference, reset cursor and history; on failure clear the busy flag and
record the caught message. -/
def generateSettle (prompt : String) (outcome : Except Thrown GenerateResponse)
    (s : AppState) : AppState :=
  match outcome with
  | Except.ok r =>
      { s with
        isGenerating := false
        presentation := some r.presentation
        presentationId := some r.presentation_id
        previewUrls := r.preview_urls
        downloadUrl := some (getDownloadUrl r.presentation_id)
        activeSlideIndex := 0
        promptHistory := [prompt] }
  | Except.error t =>
      { s with
        isGenerating := false
        error := some (caughtMessage t "Generation failed") }

/-- The whole generate action under serial execution (no interleaving
between its start set and its settle set), with the transport outcome as
a parameter. The numSlides argument only shapes the request, never the
state, so it does not appear here. -/
def generate (prompt : String) (outcome : Except Thrown GenerateResponse)
    (s : AppState) : AppState :=
  generateSettle prompt outcome (generateStartEffect s)

/-- The synchronous set issued by refine after its guard (store.ts line
102): busy flag raised, error cleared. -/
def refineStartEffect (s : AppState) : AppState :=
  { s with isRefining := true, error := none }

/-- The set issued by refine once the transport settles (store.ts lines
110 to 123). capturedHistory is the promptHistory read at dispatch time
(store.ts line 99); the success branch appends the instruction to it. -/
def refineSettle (instruction : String) (capturedHistory : List String)
    (outcome : Except Thrown RefineResponse) (s : AppState) : AppState :=
  match outcome with
  | Except.ok r =>
      { s with
        isRefining := false
        presentation := some r.presentation
        previewUrls := r.preview_urls
        downloadUrl := some (getDownloadUrl r.presentation_id)
        activeSlideIndex := 0
        promptHistory := capturedHistory ++ [instruction] }
  | Except.error t =>
      { s with
        isRefining := false
        error := some (caughtMessage t "Refinement failed") }

/-- The whole refine action under serial execution: guard on a truthy
presentationId (store.ts line 100), then start set, then settle set. -/
def refine (instruction : String) (outcome : Except Thrown RefineResponse)
    (s : AppState) : AppState :=
  if optionTruthy s.presentationId then
    refineSettle instruction s.promptHistory outcome (refineStartEffect s)
  else s

/-! ## Asynchrony: the store with in-flight transport calls

A generate call is dispatched synchronously (start set plus a fetch) and
its settle set runs when the promise resolves; nothing in the store
cancels or guards pending calls, so a world pairs the app state with the
lists of calls whose promises have not resolved yet. -/

/-- The request data captured by one dispatched generate call (store.ts
lines 68 and 72 to 79: prompt, numSlides, and the generationMode and
templateFile read from the store at dispatch time). -/
structure GenCall where
  prompt : String
  numSlides : Option ℤ
  generationMode : GenerationMode
  templateFile : Option JsFile
deriving DecidableEq, Repr

/-- The data captured by one dispatched refine call (store.ts line 99:
presentationId and promptHistory read at dispatch time, plus the
instruction). -/
structure RefCall where
  presentationId : String
  instruction : String
  capturedHistory : List String
deriving DecidableEq, Repr

/-- The app state together with the in-flight transport calls. -/
structure World where
  app : AppState
  pendingGens : List GenCall
  pendingRefs : List RefCall
deriving DecidableEq, Repr

/-- The world at page load: initial store state, nothing in flight. -/
def initWorld : World where
  app := initialState
  pendingGens := []
  pendingRefs := []

/-- Effect of invoking the generate action on a world: the start set runs
and a transport call carrying the captured request data is dispatched.
There is no guard of any kind in the source (store.ts lines 67 to 79). -/
def generateDispatchW (prompt : String) (numSlides : Option ℤ) (w : World) : World where
  app := generateStartEffect w.app
  pendingGens := w.pendingGens ++
    [{ prompt := prompt, numSlides := numSlides,
       generationMode := w.app.generationMode,
       templateFile := w.app.templateFile }]
  pendingRefs := w.pendingRefs

/-- Effect of invoking the refine action on a world whose presentationId
is truthy: the start set runs and a refine call is dispatched with the
captured identity and history (store.ts lines 98 to 108). -/
def refineDispatchW (instruction : String) (w : World) : World where
  app := refineStartEffect w.app
  pendingGens := w.pendingGens
  pendingRefs := w.pendingRefs ++
    [{ presentationId := w.app.presentationId.getD ""
       instruction := instruction
       capturedHistory := w.app.promptHistory }]

/-- One step of the session: a synchronous store action, the dispatch of
a generate or refine call, or the resolution of one pending call with a
transport outcome. Resolutions pick any pending call, so steps express
every interleaving the event loop allows. -/
inductive Step : World → World → Prop
  | doSetPrompt (w : World) (p : String) :
      Step w { w with app := setPrompt p w.app }
  | doSetActiveSlide (w : World) (i : ℤ) :
      Step w { w with app := setActiveSlide i w.app }
  | doSetGenerationMode (w : World) (m : GenerationMode) :
      Step w { w with app := setGenerationMode m w.app }
  | doSetTemplateFile (w : World) (f : Option JsFile) :
      Step w { w with app := setTemplateFile f w.app }
  | doReset (w : World) :
      Step w { w with app := reset w.app }
  | doGenerateDispatch (w : World) (prompt : String) (numSlides : Option ℤ) :
      Step w (generateDispatchW prompt numSlides w)
  | doRefineDispatch (w : World) (instruction : String) :
      optionTruthy w.app.presentationId = true →
      Step w (refineDispatchW instruction w)
  | doRefineNoOp (w : World) (instruction : String) :
      optionTruthy w.app.presentationId = false →
      Step w w
  | doGenerateResolve (w : World) (c : GenCall) (l1 l2 : List GenCall)
      (outcome : Except Thrown GenerateResponse) :
      w.pendingGens = l1 ++ c :: l2 →
      Step w { app := generateSettle c.prompt outcome w.app
               pendingGens := l1 ++ l2
               pendingRefs := w.pendingRefs }
  | doRefineResolve (w : World) (c : RefCall) (l1 l2 : List RefCall)
      (outcome : Except Thrown RefineResponse) :
      w.pendingRefs = l1 ++ c :: l2 →
      Step w { app := refineSettle c.instruction c.capturedHistory outcome w.app
               pendingGens := w.pendingGens
               pendingRefs := l1 ++ l2 }

/-- Worlds reachable from page load by any sequence of steps. -/
inductive Reachable : World → Prop
  | init : Reachable initWorld
  | step {w w' : World} : Reachable w → Step w w' → Reachable w'

/-- Like Step, but generate and refine dispatches are only taken while no
call is outstanding: the serialized usage discipline the spec demands
(the store itself does not enforce it). -/
inductive SStep : World → World → Prop
  | doSetPrompt (w : World) (p : String) :
      SStep w { w with app := setPrompt p w.app }
  | doSetActiveSlide (w : World) (i : ℤ) :
      SStep w { w with app := setActiveSlide i w.app }
  | doSetGenerationMode (w : World) (m : GenerationMode) :
      SStep w { w with app := setGenerationMode m w.app }
  | doSetTemplateFile (w : World) (f : Option JsFile) :
      SStep w { w with app := setTemplateFile f w.app }
  | doReset (w : World) :
      SStep w { w with app := reset w.app }
  | doGenerateDispatch (w : World) (prompt : String) (numSlides : Option ℤ) :
      w.app.isGenerating = false → w.app.isRefining = false →
      SStep w (generateDispatchW prompt numSlides w)
  | doRefineDispatch (w : World) (instruction : String) :
      optionTruthy w.app.presentationId = true →
      w.app.isGenerating = false → w.app.isRefining = false →
      SStep w (refineDispatchW instruction w)
  | doRefineNoOp (w : World) (instruction : String) :
      optionTruthy w.app.presentationId = false →
      SStep w w
  | doGenerateResolve (w : World) (c : GenCall) (l1 l2 : List GenCall)
      (outcome : Except Thrown GenerateResponse) :
      w.pendingGens = l1 ++ c :: l2 →
      SStep w { app := generateSettle c.prompt outcome w.app
                pendingGens := l1 ++ l2
                pendingRefs := w.pendingRefs }
  | doRefineResolve (w : World) (c : RefCall) (l1 l2 : List RefCall)
      (outcome : Except Thrown RefineResponse) :
      w.pendingRefs = l1 ++ c :: l2 →
      SStep w { app := refineSettle c.instruction c.capturedHistory outcome w.app
                pendingGens := w.pendingGens
                pendingRefs := l1 ++ l2 }

/-- Worlds reachable from page load under serialized dispatches. -/
inductive SReachable : World → Prop
  | init : SReachable initWorld
  | step {w w' : World} : SReachable w → SStep w w' → SReachable w'

/-- The handleSubmit callback of ChatPanel.tsx (lines 54 to 58): returns
without touching the store when the trimmed prompt is empty or a generate
is already in flight, otherwise invokes generate with the trimmed
prompt. -/
def handleSubmit (numSlides : Option ℤ) (w : World) : World :=
  if w.app.prompt.trim == "" || w.app.isGenerating then w
  else generateDispatchW w.app.prompt.trim numSlides w

/-- The effect of invoking the refine store action on a world: when the
guard passes a call is dispatched, otherwise nothing at all happens
(store.ts line 100). -/
def refineInvokeW (instruction : String) (w : World) : World :=
  if optionTruthy w.app.presentationId then refineDispatchW instruction w else w

/-! ## Concrete sample data for witnesses and counterexamples -/

/-- A concrete theme. -/
def sampleTheme : ThemeSettings where
  primary_color := "#1a73e8"
  secondary_color := "#fbbc04"
  background_color := "#ffffff"
  font_heading := "Inter"
  font_body := "Inter"

/-- A concrete slide with one title text box. -/
def sampleSlide : Slide where
  layout := LayoutType.title
  background_color := "#ffffff"
  elements := [SlideElement.text
    { content := "Pitch", is_title := true, x := 1, y := 1, width := 8,
      height := 1, font_name := "Inter", font_size := 32, font_bold := true,
      font_italic := false, font_color := "#000000",
      alignment := HorizontalAlignment.center,
      vertical_alignment := VerticalAlignment.top }]
  speaker_notes := ""

/-- A concrete 3-slide presentation. -/
def samplePresentation : Presentation where
  title := "Pitch Deck"
  subtitle := ""
  author := ""
  theme := sampleTheme
  slides := [sampleSlide, sampleSlide, sampleSlide]

/-- A concrete successful generate response with identity "p1". -/
def sampleGenResponse : GenerateResponse where
  presentation_id := "p1"
  presentation := samplePresentation
  download_url := getDownloadUrl "p1"
  preview_urls := [getPreviewUrl "p1" 0, getPreviewUrl "p1" 1, getPreviewUrl "p1" 2]
  generation_mode := GenerationMode.from_scratch
  design_tokens := none

/-- A concrete successful refine response with the same identity. -/
def sampleRefResponse : RefineResponse where
  presentation_id := "p1"
  presentation := samplePresentation
  download_url := getDownloadUrl "p1"
  preview_urls := sampleGenResponse.preview_urls

/-- The state after one successful generate from the initial state. -/
def sampleReadyState : AppState :=
  generate "Make a 3-slide pitch deck" (Except.ok sampleGenResponse) initialState

/-- The corresponding quiescent world (no call in flight). -/
def sampleReadyWorld : World where
  app := sampleReadyState
  pendingGens := []
  pendingRefs := []

/-- The world after a first generate fails from Idle: an error is
recorded, no identity is set, nothing is in flight. -/
def failedIdleWorld : World where
  app := generate "first" (Except.error (Thrown.jsError "boom")) initialState
  pendingGens := []
  pendingRefs := []

/-- A world with one generate call in flight (used for claim C5). -/
def busyWorld : World := generateDispatchW "first" none initWorld

/-- A world with one generate call in flight (used for claim C6). -/
def genBusyWorld : World := generateDispatchW "Make a 3-slide pitch deck" none initWorld

/-- The request captured by the dispatch that produced genBusyWorld. -/
def sampleGenCall : GenCall where
  prompt := "Make a 3-slide pitch deck"
  numSlides := none
  generationMode := GenerationMode.from_scratch
  templateFile := none

/-- The world after that call resolves successfully, written in the exact
shape produced by the doGenerateResolve step. -/
def readyWorld : World where
  app := generateSettle sampleGenCall.prompt (Except.ok sampleGenResponse) genBusyWorld.app
  pendingGens := ([] : List GenCall) ++ []
  pendingRefs := genBusyWorld.pendingRefs

/-- The world after a refine is dispatched from readyWorld. -/
def refiningWorld : World := refineDispatchW "Add a summary slide" readyWorld

/-- The world after a generate is dispatched while that refine is still
in flight: both busy flags are raised. -/
def bothBusyWorld : World := generateDispatchW "Start over" none refiningWorld

/-! ## Claims -/

/-- C1: for every session state and every generate or refine call whose
transport invocation fails (a thrown Error carrying message m), the
resulting state keeps presentation, presentationId and promptHistory at
their prior values, clears the corresponding busy flag, and records m as
the single current error, replacing any previous error. The generate half
holds in every state, Idle included; the refine half is stated under the
truthiness guard because only then is a refine call made at all. -/
theorem C1_failure_preserves_good_state (s : AppState) (prompt instruction m : String) :
    generate prompt (Except.error (Thrown.jsError m)) s =
      { s with isGenerating := false, error := some m } ∧
    (optionTruthy s.presentationId = true →
      refine instruction (Except.error (Thrown.jsError m)) s =
        { s with isRefining := false, error := some m }) := by
  constructor
  · rfl
  · intro hid
    simp [refine, hid, refineStartEffect, refineSettle, caughtMessage]

/-- Witness for C1: a first generate failing from Idle (no identity), a
generate failing from the ready state, and a refine failing from the
ready state with identity "p1". -/
theorem C1_failure_preserves_good_state_witness :
    initialState.presentationId = none ∧
    optionTruthy sampleReadyState.presentationId = true ∧
    (generate "first" (Except.error (Thrown.jsError "boom")) initialState =
       { initialState with isGenerating := false, error := some "boom" } ∧
     generate "again" (Except.error (Thrown.jsError "boom")) sampleReadyState =
       { sampleReadyState with isGenerating := false, error := some "boom" } ∧
     refine "Make it blue" (Except.error (Thrown.jsError "boom")) sampleReadyState =
       { sampleReadyState with isRefining := false, error := some "boom" }) :=
  ⟨rfl, by decide,
   (C1_failure_preserves_good_state initialState "first" "Make it blue" "boom").1,
   (C1_failure_preserves_good_state sampleReadyState "again" "Make it blue" "boom").1,
   (C1_failure_preserves_good_state sampleReadyState "again" "Make it blue" "boom").2
     (by decide)⟩

/-- C2: every successful generate response replaces the presentation, sets
presentationId and previewUrls from the response, sets downloadUrl to
getDownloadUrl of the response identity, resets the cursor to 0 and
resets the history to the one-element list holding the prompt. -/
theorem C2_generate_success_replaces_state (s : AppState) (prompt : String)
    (r : GenerateResponse) :
    (generate prompt (Except.ok r) s).presentation = some r.presentation ∧
    (generate prompt (Except.ok r) s).presentationId = some r.presentation_id ∧
    (generate prompt (Except.ok r) s).previewUrls = r.preview_urls ∧
    (generate prompt (Except.ok r) s).downloadUrl = some (getDownloadUrl r.presentation_id) ∧
    (generate prompt (Except.ok r) s).activeSlideIndex = 0 ∧
    (generate prompt (Except.ok r) s).promptHistory = [prompt] ∧
    (generate prompt (Except.ok r) s).isGenerating = false :=
  ⟨rfl, rfl, rfl, rfl, rfl, rfl, rfl⟩

/-- C3: with a presentationId set (to a nonempty id, which is what the
truthiness guard of the source requires), every successful refine
response replaces the presentation, previews and download reference,
keeps the stored presentationId unchanged, resets the cursor to 0 and
appends the instruction to the existing history. -/
theorem C3_refine_success_appends_history (s : AppState) (pid instruction : String)
    (r : RefineResponse) (h : s.presentationId = some pid) (hpid : pid ≠ "") :
    (refine instruction (Except.ok r) s).presentation = some r.presentation ∧
    (refine instruction (Except.ok r) s).presentationId = some pid ∧
    (refine instruction (Except.ok r) s).previewUrls = r.preview_urls ∧
    (refine instruction (Except.ok r) s).downloadUrl = some (getDownloadUrl r.presentation_id) ∧
    (refine instruction (Except.ok r) s).activeSlideIndex = 0 ∧
    (refine instruction (Except.ok r) s).promptHistory = s.promptHistory ++ [instruction] ∧
    (refine instruction (Except.ok r) s).isRefining = false := by
  have htruthy : optionTruthy (some pid) = true := by
    simp [optionTruthy, hpid]
  simp [refine, h, htruthy, refineStartEffect, refineSettle]

/-- Witness for C3 at the concrete ready state with identity "p1". -/
theorem C3_refine_success_appends_history_witness :
    (sampleReadyState.presentationId = some "p1" ∧ "p1" ≠ "") ∧
    ((refine "Make it blue" (Except.ok sampleRefResponse) sampleReadyState).presentation
        = some sampleRefResponse.presentation ∧
     (refine "Make it blue" (Except.ok sampleRefResponse) sampleReadyState).presentationId
        = some "p1" ∧
     (refine "Make it blue" (Except.ok sampleRefResponse) sampleReadyState).previewUrls
        = sampleRefResponse.preview_urls ∧
     (refine "Make it blue" (Except.ok sampleRefResponse) sampleReadyState).downloadUrl
        = some (getDownloadUrl sampleRefResponse.presentation_id) ∧
     (refine "Make it blue" (Except.ok sampleRefResponse) sampleReadyState).activeSlideIndex
        = 0 ∧
     (refine "Make it blue" (Except.ok sampleRefResponse) sampleReadyState).promptHistory
        = sampleReadyState.promptHistory ++ ["Make it blue"] ∧
     (refine "Make it blue" (Except.ok sampleRefResponse) sampleReadyState).isRefining
        = false) :=
  ⟨⟨by decide, by decide⟩,
   C3_refine_success_appends_history sampleReadyState "p1" "Make it blue"
     sampleRefResponse (by decide) (by decide)⟩

/-- C7: with no presentationId set, invoking refine dispatches no
transport call and leaves the entire world (app state and pending calls)
unchanged, for every instruction and every would-be outcome. -/
theorem C7_refine_without_id_is_noop (w : World) (instruction : String)
    (outcome : Except Thrown RefineResponse) (h : w.app.presentationId = none) :
    refineInvokeW instruction w = w ∧ refine instruction outcome w.app = w.app := by
  constructor
  · simp [refineInvokeW, optionTruthy, h]
  · simp [refine, optionTruthy, h]

/-- Witness for C7 at the initial world. -/
theorem C7_refine_without_id_is_noop_witness :
    initWorld.app.presentationId = none ∧
    (refineInvokeW "Make it blue" initWorld = initWorld ∧
     refine "Make it blue" (Except.error Thrown.nonError) initWorld.app = initWorld.app) :=
  ⟨rfl, C7_refine_without_id_is_noop initWorld "Make it blue"
    (Except.error Thrown.nonError) rfl⟩

/-- C8: reset returns every field of the session state to the initial
Idle values, from any state. -/
theorem C8_reset_returns_to_initial (s : AppState) : reset s = initialState := rfl

/-- C9: getDownloadUrl and getPreviewUrl are pure deterministic string
constructions over the API base, the id and the slide index: two calls
with identical arguments are equal, and each equals its template-string
expansion (no network access is involved in either). -/
theorem C9_reference_builders_pure :
    (∀ pid : String, getDownloadUrl pid = getDownloadUrl pid ∧
      getDownloadUrl pid = API_BASE ++ "/api/download/" ++ pid) ∧
    (∀ (pid : String) (i : ℤ), getPreviewUrl pid i = getPreviewUrl pid i ∧
      getPreviewUrl pid i = API_BASE ++ "/api/preview/" ++ pid ++ "/" ++ toString i) :=
  ⟨fun _ => ⟨rfl, rfl⟩, fun _ _ => ⟨rfl, rfl⟩⟩

/-- C10: dispatching a generate call (from any state whatsoever), or a
refine call with a truthy presentationId, immediately sets the busy flag
and clears any recorded error before the transport outcome is known: the
in-flight app state has error none. Both dispatches are legal steps of
the session. -/
theorem C10_dispatch_clears_error (w : World) (prompt instruction : String)
    (numSlides : Option ℤ) :
    (generateDispatchW prompt numSlides w).app.error = none ∧
    (generateDispatchW prompt numSlides w).app.isGenerating = true ∧
    Step w (generateDispatchW prompt numSlides w) ∧
    (optionTruthy w.app.presentationId = true →
      (refineDispatchW instruction w).app.error = none ∧
      (refineDispatchW instruction w).app.isRefining = true ∧
      Step w (refineDispatchW instruction w)) :=
  ⟨rfl, rfl, Step.doGenerateDispatch w prompt numSlides,
   fun h => ⟨rfl, rfl, Step.doRefineDispatch w instruction h⟩⟩

/-- Witness for C10: a generate dispatched from the id-less world whose
previous generate failed (error recorded, presentationId still none)
clears the error, and a refine dispatched from the ready world with
identity "p1" does too. -/
theorem C10_dispatch_clears_error_witness :
    failedIdleWorld.app.error = some "boom" ∧
    failedIdleWorld.app.presentationId = none ∧
    optionTruthy sampleReadyWorld.app.presentationId = true ∧
    ((generateDispatchW "retry" none failedIdleWorld).app.error = none ∧
     (generateDispatchW "retry" none failedIdleWorld).app.isGenerating = true ∧
     Step failedIdleWorld (generateDispatchW "retry" none failedIdleWorld)) ∧
    ((refineDispatchW "Make it blue" sampleReadyWorld).app.error = none ∧
     (refineDispatchW "Make it blue" sampleReadyWorld).app.isRefining = true ∧
     Step sampleReadyWorld (refineDispatchW "Make it blue" sampleReadyWorld)) :=
  ⟨rfl, rfl, by decide,
   ⟨(C10_dispatch_clears_error failedIdleWorld "retry" "Make it blue" none).1,
    (C10_dispatch_clears_error failedIdleWorld "retry" "Make it blue" none).2.1,
    (C10_dispatch_clears_error failedIdleWorld "retry" "Make it blue" none).2.2.1⟩,
   (C10_dispatch_clears_error sampleReadyWorld "again" "Make it blue" none).2.2.2
     (by decide)⟩

/-- C4 counterexample: in a reachable ready state whose presentation has
3 slides, setActiveSlide (-1) stores -1 rather than the clamp 0, and
setActiveSlide 3 stores 3 rather than the clamp 2: the claim that the
index is clamped into the slide range is false of the source. -/
theorem C4_counterexample :
    (sampleReadyState.presentation.map fun p => p.slides.length) = some 3 ∧
    (setActiveSlide (-1) sampleReadyState).activeSlideIndex = -1 ∧
    (setActiveSlide (-1) sampleReadyState).activeSlideIndex ≠ 0 ∧
    (setActiveSlide 3 sampleReadyState).activeSlideIndex = 3 ∧
    (setActiveSlide 3 sampleReadyState).activeSlideIndex ≠ 2 := by
  decide

/-- C4 amended: setActiveSlide stores the requested index verbatim into
activeSlideIndex, leaving every other field unchanged; it performs no
clamping of any kind. -/
theorem C4_amended_stores_index_verbatim (s : AppState) (index : ℤ) :
    setActiveSlide index s = { s with activeSlideIndex := index } := rfl

/-- C5 counterexample: from the reachable world with one generate call in
flight (busy flag set), invoking generate again dispatches a second
transport call (the pending-call list grows from 1 to 2), so the call is
not the claimed silent no-op. -/
theorem C5_counterexample :
    Reachable busyWorld ∧
    busyWorld.app.isGenerating = true ∧
    busyWorld.pendingGens.length = 1 ∧
    Step busyWorld (generateDispatchW "second" none busyWorld) ∧
    (generateDispatchW "second" none busyWorld).pendingGens.length = 2 :=
  ⟨Reachable.step Reachable.init (Step.doGenerateDispatch initWorld "first" none),
   rfl, rfl, Step.doGenerateDispatch busyWorld "second" none, rfl⟩

/-- C5 amended: the store action itself has no busy guard: invoking
generate in any world dispatches a transport call carrying the captured
request and applies the start set (busy flag raised, error cleared),
everything else unchanged; the silent no-op while generating exists only
in the ChatPanel submit handler, which returns without invoking the store
action when isGenerating is set. -/
theorem C5_amended_generate_has_no_guard (w w2 : World) (prompt : String)
    (numSlides ns : Option ℤ) (h : w2.app.isGenerating = true) :
    (generateDispatchW prompt numSlides w).pendingGens =
      w.pendingGens ++
        [{ prompt := prompt, numSlides := numSlides,
           generationMode := w.app.generationMode,
           templateFile := w.app.templateFile }] ∧
    (generateDispatchW prompt numSlides w).app = generateStartEffect w.app ∧
    handleSubmit ns w2 = w2 := by
  refine ⟨rfl, rfl, ?_⟩
  simp [handleSubmit, h]

/-- Witness for the amended C5 at the busy world. -/
theorem C5_amended_generate_has_no_guard_witness :
    busyWorld.app.isGenerating = true ∧
    ((generateDispatchW "second" none busyWorld).pendingGens =
       busyWorld.pendingGens ++
         [{ prompt := "second", numSlides := none,
            generationMode := busyWorld.app.generationMode,
            templateFile := busyWorld.app.templateFile }] ∧
     (generateDispatchW "second" none busyWorld).app = generateStartEffect busyWorld.app ∧
     handleSubmit none busyWorld = busyWorld) :=
  ⟨rfl, C5_amended_generate_has_no_guard busyWorld busyWorld "second" none none rfl⟩

/-- C6 counterexample: a world with both isGenerating and isRefining true
is reachable from the initial world by store actions alone: generate
successfully, dispatch a refine, then dispatch a second generate while
the refine is still in flight. The claimed exclusivity invariant is false
of the source. -/
theorem C6_counterexample :
    Reachable bothBusyWorld ∧
    bothBusyWorld.app.isGenerating = true ∧
    bothBusyWorld.app.isRefining = true := by
  refine ⟨?_, rfl, rfl⟩
  have h1 : Reachable genBusyWorld :=
    Reachable.step Reachable.init
      (Step.doGenerateDispatch initWorld "Make a 3-slide pitch deck" none)
  have h2 : Reachable readyWorld :=
    Reachable.step h1
      (Step.doGenerateResolve genBusyWorld sampleGenCall [] []
        (Except.ok sampleGenResponse) rfl)
  have h3 : Reachable refiningWorld :=
    Reachable.step h2 (Step.doRefineDispatch readyWorld "Add a summary slide" rfl)
  exact Reachable.step h3 (Step.doGenerateDispatch refiningWorld "Start over" none)

/-- C6 amended: when generate and refine are dispatched only while no
call is outstanding (the serialized usage discipline, which the store
does not itself enforce), every reachable world has at most one of
isGenerating and isRefining set. -/
theorem C6_amended_serialized_exclusive (w : World) (h : SReachable w) :
    ¬ (w.app.isGenerating = true ∧ w.app.isRefining = true) := by
  induction h with
  | init => simp [initWorld, initialState]
  | step hr hs ih =>
    cases hs with
    | doSetPrompt p => simpa [setPrompt] using ih
    | doSetActiveSlide i => simpa [setActiveSlide] using ih
    | doSetGenerationMode m => simpa [setGenerationMode] using ih
    | doSetTemplateFile f => simpa [setTemplateFile] using ih
    | doReset => simp [reset]
    | doGenerateDispatch prompt numSlides hG hR =>
        simp [generateDispatchW, generateStartEffect, hR]
    | doRefineDispatch instruction ht hG hR =>
        simp [refineDispatchW, refineStartEffect, hG]
    | doRefineNoOp instruction ht => exact ih
    | doGenerateResolve c l1 l2 outcome hp =>
        cases outcome <;> simp [generateSettle]
    | doRefineResolve c l1 l2 outcome hp =>
        cases outcome <;> simp [refineSettle]

/-- Witness for the amended C6 at the initial world. -/
theorem C6_amended_serialized_exclusive_witness :
    SReachable initWorld ∧
    ¬ (initWorld.app.isGenerating = true ∧ initWorld.app.isRefining = true) :=
  ⟨SReachable.init, C6_amended_serialized_exclusive initWorld SReachable.init⟩

end SlideDeckAI
